import Mathlib

/-!
Shallow embedding of the element rendering protocol slice of gpui:
`crates/gpui/src/elements/canvas.rs` (the `Canvas` callback-adapter element)
and `crates/gpui/src/window/element_cx.rs` (the `ElementContext` wrapper over
`WindowContext`), together with spec-modelled stand-ins for the pieces of the
repository these two files use but that are not part of the excerpt
(`Style` / `StyleRefinement` / `Refineable::refine`, `Style::paint`, the
layout-solver registration, and the `WindowContext` persistent-state
operations).

Conventions of the embedding:
  * `Pixels` is modelled as `Int` (bounds are opaque data for these claims;
    no pixel arithmetic is performed by the code under study).
  * Rust panics (`Option::unwrap` on `None`) are modelled by returning
    `none` from the embedded method, or by an explicit `Bool` "trapped"
    flag when the panic happens inside a closure that a scope guard wraps.
  * `&mut` state is modelled by explicit state passing: each method returns
    the updated receiver / context alongside its result.
-/

/-- Device-independent pixel scalar (`Pixels` in gpui), modelled as `Int`. -/
abbrev Pixels := Int

/-- A 2-d point, origin of a bounds rectangle. -/
structure Point where
  x : Pixels
  y : Pixels
  deriving DecidableEq, Repr

/-- A 2-d size. -/
structure Size where
  width : Pixels
  height : Pixels
  deriving DecidableEq, Repr

/-- Axis-aligned rectangle in device-independent pixel space
(`Bounds<Pixels>` in gpui). -/
structure Bounds where
  origin : Point
  size : Size
  deriving DecidableEq, Repr

/-- Modelled from the spec: the effective `Style` (the full definition lives
in `crates/gpui/src/style.rs`, outside the excerpt). The spec names the
fields the cascade result is used for: layout constraints (intrinsic min/max
size hints) and paint-time decorations (background, border, shadow, corner
radii); we model one representative field of each kind. -/
structure Style where
  background : Nat
  borderWidth : Nat
  shadow : Nat
  cornerRadius : Nat
  minSize : Size
  maxSize : Size
  deriving DecidableEq, Repr

/-- Modelled from the spec: `Style::default()`, the base style that overrides
are cascaded onto. -/
def Style.default : Style :=
  { background := 0
    borderWidth := 0
    shadow := 0
    cornerRadius := 0
    minSize := ⟨0, 0⟩
    maxSize := ⟨0, 0⟩ }

/-- Modelled from the spec: `StyleRefinement`, the per-node style-override
record: every field of `Style`, optionally present. -/
structure StyleRefinement where
  background : Option Nat
  borderWidth : Option Nat
  shadow : Option Nat
  cornerRadius : Option Nat
  minSize : Option Size
  maxSize : Option Size
  deriving DecidableEq, Repr

/-- Modelled from the spec: `StyleRefinement::default()`, the empty override
record (no field present). -/
def StyleRefinement.default : StyleRefinement :=
  { background := none
    borderWidth := none
    shadow := none
    cornerRadius := none
    minSize := none
    maxSize := none }

/-- Modelled from the spec: `Refineable::refine` (crate `refineable`, outside
the excerpt). Field-by-field merge: an override field that is present takes
precedence; an absent override field inherits the base. -/
def Style.refine (s : Style) (r : StyleRefinement) : Style :=
  { background := r.background.getD s.background
    borderWidth := r.borderWidth.getD s.borderWidth
    shadow := r.shadow.getD s.shadow
    cornerRadius := r.cornerRadius.getD s.cornerRadius
    minSize := r.minSize.getD s.minSize
    maxSize := r.maxSize.getD s.maxSize }

/-- A drawing primitive appended to the accumulating scene of the frame.
Scoped-region pushes and pops are recorded in the same append-only sequence,
as the draw-command sink interface of the spec requires; other primitives
are opaque. -/
inductive Prim where
  | pushRegion : Bounds → Style → Prim
  | popRegion : Prim
  | draw : Nat → Prim
  deriving DecidableEq, Repr

/-- The per-frame paint/prepaint context threaded through the stages:
the append-only draw-command accumulator and the stack of active scoped
regions. (`PrepaintContext` / `PaintContext` in gpui; both are views of the
same frame state, so one type models both.) -/
structure Ctx where
  scene : List Prim
  regionStack : List Bounds
  deriving DecidableEq, Repr

/-- Push a styling-derived scoped region: append the push command to the
scene and push the clip bounds onto the active-region stack. -/
def Ctx.pushScopedRegion (cx : Ctx) (s : Style) (b : Bounds) : Ctx :=
  { scene := cx.scene ++ [Prim.pushRegion b s]
    regionStack := b :: cx.regionStack }

/-- Pop the innermost scoped region: append the pop command to the scene and
pop the active-region stack. -/
def Ctx.popScopedRegion (cx : Ctx) : Ctx :=
  { scene := cx.scene ++ [Prim.popRegion]
    regionStack := cx.regionStack.tail }

/-- Contribution of one primitive to the push/pop balance. -/
def primDelta : Prim → Int
  | Prim.pushRegion _ _ => 1
  | Prim.popRegion => -1
  | Prim.draw _ => 0

/-- Net push/pop balance of a scene fragment (pushes minus pops). -/
def regionBalance (ps : List Prim) : Int :=
  (ps.map primDelta).sum

/-- Modelled from the spec: `Style::paint` (defined in
`crates/gpui/src/style.rs`, outside the excerpt). It establishes the
styling-derived scoped region (clip to bounds, decorations per the effective
style) before invoking the node-specific draw logic and releases the region
unconditionally afterward, on every exit path. The draw logic returns a
`Bool` flagging a fatal contract violation (a Rust panic) raised inside it;
the region is released in that case as well. -/
def Style.paint (s : Style) (bounds : Bounds) (cx : Ctx) (f : Ctx → Bool × Ctx) :
    Bool × Ctx :=
  let cx1 := cx.pushScopedRegion s bounds
  let r := f cx1
  (r.1, r.2.popScopedRegion)

/-- The `Canvas<T>` element (`crates/gpui/src/elements/canvas.rs`): two
single-use callbacks held in `Option` slots plus a style-override record.
The callbacks are opaque user closures, modelled as Lean functions over the
explicit-state context. -/
structure Canvas (T : Type) where
  prepaint : Option (Bounds → Ctx → T × Ctx)
  paint : Option (Bounds → T → Ctx → Ctx)
  style : StyleRefinement

/-- The `canvas` constructor: both callback slots start populated and the
style-override record starts empty. -/
def canvas {T : Type} (prepaint : Bounds → Ctx → T × Ctx)
    (paint : Bounds → T → Ctx → Ctx) : Canvas T :=
  { prepaint := some prepaint
    paint := some paint
    style := StyleRefinement.default }

/-- An opaque layout-solver handle (`LayoutId`). -/
abbrev LayoutId := Nat

/-- The layout-request stage context (`RequestLayoutContext`): the list of
registrations handed to the external solver, a fresh-id counter, and the
frame scene (which `request_layout` must not touch). -/
structure LayoutCtx where
  requests : List (Style × List LayoutId)
  nextId : Nat
  scene : List Prim
  deriving DecidableEq, Repr

/-- Modelled from the spec: the external layout solver registration
`register(style_hint, child_layout_ids) -> LayoutId` (reached through
`RequestLayoutContext::request_layout`, outside the excerpt): it appends one
registration and returns a fresh opaque id; it never fails and emits no
drawing primitives. -/
def LayoutCtx.request_layout (cx : LayoutCtx) (s : Style)
    (children : List LayoutId) : LayoutId × LayoutCtx :=
  (cx.nextId,
   { requests := cx.requests ++ [(s, children)]
     nextId := cx.nextId + 1
     scene := cx.scene })

namespace Element

/-- Embeds `<Canvas<T> as Element>::request_layout`: cascade the overrides
of the node onto the default style, register with the solver with no
children, and return the solver handle paired with the effective style (the
carried-forward `RequestLayoutState`). -/
def request_layout {T : Type} (c : Canvas T) (cx : LayoutCtx) :
    (LayoutId × Style) × LayoutCtx :=
  let style := Style.default.refine c.style
  let r := cx.request_layout style []
  ((r.1, style), r.2)

/-- Embeds `<Canvas<T> as Element>::prepaint`:
`Some(self.prepaint.take().unwrap()(bounds, cx))`. The outer `Option` of the
result models the trap: `none` means the `unwrap` panicked because the
callback slot was already empty. On success, the result carries the produced
`PrepaintState` (`Option T`), the updated element (its prepaint slot forcibly
emptied by `take`), and the updated context. -/
def prepaint {T : Type} (c : Canvas T) (bounds : Bounds) (cx : Ctx) :
    Option (Option T × Canvas T × Ctx) :=
  match c.prepaint with
  | none => none
  | some f =>
    let r := f bounds cx
    some (some r.1, { c with prepaint := none }, r.2)

/-- Embeds `<Canvas<T> as Element>::paint`:
`let prepaint = prepaint.take().unwrap(); style.paint(bounds, cx, |cx| (self.paint.take().unwrap())(bounds, prepaint, cx))`.
The outer `Option` models the first trap point (payload slot empty, before
any region is pushed). On `some`, the `Bool` models the second trap point
(paint-callback slot already empty, raised inside the scope guard, which
releases the region regardless); the remaining components are the updated
element (paint slot forcibly emptied by `take`), the emptied payload slot,
and the updated context. -/
def paint {T : Type} (c : Canvas T) (bounds : Bounds) (style : Style)
    (prepaintState : Option T) (cx : Ctx) :
    Option (Bool × Canvas T × Option T × Ctx) :=
  match prepaintState with
  | none => none
  | some t =>
    let r := style.paint bounds cx (fun cxIn =>
      match c.paint with
      | none => (true, cxIn)
      | some g => (false, g bounds t cxIn))
    some (r.1, { c with paint := none }, none, r.2)

end Element

/-- Modelled from the spec: the application-wide state reachable through the
context (`AppContext`, outside the excerpt): a store of persistent state
cells ("models"/"views" are entities in this store), addressed by identity.
The cell payload type `α` is a parameter (cells are type-erased in gpui). -/
structure AppContext (α : Type) where
  nextEntityId : Nat
  entities : List (Nat × α)
  deriving DecidableEq, Repr

/-- Modelled from the spec: the window-local state (`Window`, outside the
excerpt): window-scoped data such as the focus target; opaque for these
claims. -/
structure Window where
  focus : Option Nat
  rootView : Option Nat
  deriving DecidableEq, Repr

/-- The `WindowContext`: the long-lived handle pairing app-wide state with
the state of one window (its definition lives in `crates/gpui/src/window.rs`,
outside the excerpt; modelled from the spec as the wrapper over both). -/
structure WindowContext (α : Type) where
  app : AppContext α
  window : Window
  deriving DecidableEq, Repr

/-- Embeds `WindowContext::new(app, window)` (outside the excerpt): wrap the
very same app and window state, copying neither. -/
def WindowContext.new {α : Type} (app : AppContext α) (window : Window) :
    WindowContext α :=
  { app := app, window := window }

namespace WindowContext

/-- Modelled from the spec: `WindowContext::new_model` — create a new
persistent state cell in the long-lived store and return its handle. The
builder receives the fresh cell identity (standing in for the
`ModelContext` it gets in gpui). -/
def new_model {α : Type} (cx : WindowContext α) (build : Nat → α) :
    Nat × WindowContext α :=
  (cx.app.nextEntityId,
   { cx with
      app :=
        { nextEntityId := cx.app.nextEntityId + 1
          entities :=
            cx.app.entities ++ [(cx.app.nextEntityId, build cx.app.nextEntityId)] } })

/-- Modelled from the spec: `WindowContext::update_model` — update an
existing persistent state cell by identity; the closure returns the new cell
value together with a result passed back to the caller. -/
def update_model {α β : Type} (cx : WindowContext α) (id : Nat)
    (f : α → α × β) : Option β × WindowContext α :=
  match (cx.app.entities.filter (fun e => e.1 = id)).head? with
  | none => (none, cx)
  | some e =>
    let r := f e.2
    (some r.2,
     { cx with
        app :=
          { cx.app with
             entities :=
               cx.app.entities.map (fun e2 => if e2.1 = id then (e2.1, r.1) else e2) } })

/-- Modelled from the spec: `WindowContext::read_model` — read an existing
persistent state cell immutably, by identity. -/
def read_model {α β : Type} (cx : WindowContext α) (id : Nat) (read : α → β) :
    Option β :=
  match (cx.app.entities.filter (fun e => e.1 = id)).head? with
  | none => none
  | some e => some (read e.2)

/-- Modelled from the spec: `WindowContext::new_view` — the view-level
equivalent of creating a persistent state cell: views are entities in the
same long-lived store. -/
def new_view {α : Type} (cx : WindowContext α) (build : Nat → α) :
    Nat × WindowContext α :=
  cx.new_model build

/-- Modelled from the spec: `WindowContext::update_view` — the view-level
equivalent of updating a persistent state cell by identity. -/
def update_view {α β : Type} (cx : WindowContext α) (id : Nat)
    (f : α → α × β) : Option β × WindowContext α :=
  cx.update_model id f

end WindowContext

/-- The `ElementContext` (`crates/gpui/src/window/element_cx.rs`): a struct
with the single field `cx: WindowContext`; it layers no state of its own. -/
structure ElementContext (α : Type) where
  cx : WindowContext α
  deriving DecidableEq, Repr

namespace ElementContext

/-- Embeds `<ElementContext as Context>::new_model`: `self.cx.new_model(build_model)`. -/
def new_model {α : Type} (ec : ElementContext α) (build : Nat → α) :
    Nat × ElementContext α :=
  let r := ec.cx.new_model build
  (r.1, { cx := r.2 })

/-- Embeds `<ElementContext as Context>::update_model`: `self.cx.update_model(handle, update)`. -/
def update_model {α β : Type} (ec : ElementContext α) (id : Nat)
    (f : α → α × β) : Option β × ElementContext α :=
  let r := ec.cx.update_model id f
  (r.1, { cx := r.2 })

/-- Embeds `<ElementContext as Context>::read_model`: `self.cx.read_model(handle, read)`. -/
def read_model {α β : Type} (ec : ElementContext α) (id : Nat) (read : α → β) :
    Option β :=
  ec.cx.read_model id read

/-- Embeds `<ElementContext as VisualContext>::new_view`: `self.cx.new_view(build_view)`. -/
def new_view {α : Type} (ec : ElementContext α) (build : Nat → α) :
    Nat × ElementContext α :=
  let r := ec.cx.new_view build
  (r.1, { cx := r.2 })

/-- Embeds `<ElementContext as VisualContext>::update_view`: `self.cx.update_view(view, update)`. -/
def update_view {α β : Type} (ec : ElementContext α) (id : Nat)
    (f : α → α × β) : Option β × ElementContext α :=
  let r := ec.cx.update_view id f
  (r.1, { cx := r.2 })

/-- Embeds `Borrow<AppContext> for ElementContext`: `self.cx.app`. -/
def borrowApp {α : Type} (ec : ElementContext α) : AppContext α :=
  ec.cx.app

/-- Embeds `Borrow<WindowContext> for ElementContext`: `&self.cx`. -/
def borrowWindowContext {α : Type} (ec : ElementContext α) : WindowContext α :=
  ec.cx

/-- Embeds `Borrow<Window> for ElementContext`: `self.cx.window`. -/
def borrowWindow {α : Type} (ec : ElementContext α) : Window :=
  ec.cx.window

/-- Embeds `BorrowMut<AppContext> for ElementContext` (delegating to the
`BorrowMut` of the wrapped context, which hands out the app field): a
mutation applied through the borrowed view lands on the underlying app
state in place. -/
def borrowMutApp {α : Type} (ec : ElementContext α)
    (f : AppContext α → AppContext α) : ElementContext α :=
  { cx := { ec.cx with app := f ec.cx.app } }

/-- Embeds `BorrowMut<WindowContext> for ElementContext`: `&mut self.cx`. -/
def borrowMutWindowContext {α : Type} (ec : ElementContext α)
    (f : WindowContext α → WindowContext α) : ElementContext α :=
  { cx := f ec.cx }

/-- Embeds `BorrowMut<Window> for ElementContext` (delegating to the
`BorrowMut` of the wrapped context, which hands out the window field). -/
def borrowMutWindow {α : Type} (ec : ElementContext α)
    (f : Window → Window) : ElementContext α :=
  { cx := { ec.cx with window := f ec.cx.window } }

end ElementContext

/-- Embeds `WindowContext::with_element_context`: run `f` against an
`ElementContext` wrapping `WindowContext::new(self.app, self.window)` — the
same underlying state, not a copy; mutations made through the element
context land back in the window context. -/
def WindowContext.with_element_context {α β : Type} (wc : WindowContext α)
    (f : ElementContext α → β × ElementContext α) : β × WindowContext α :=
  let r := f { cx := WindowContext.new wc.app wc.window }
  (r.1, r.2.cx)

/-- The interface operation `create_state` from the spec: invoke the
corresponding operation on the wrapped long-lived handle with the same
arguments; the element-context layer contributes nothing of its own. -/
def create_state {α : Type} (ec : ElementContext α) (build : Nat → α) :
    Nat × ElementContext α :=
  ((ec.cx.new_model build).1, { cx := (ec.cx.new_model build).2 })

/-- The interface operation `update_state(identity)` from the spec,
delegating to the wrapped long-lived handle. -/
def update_state {α β : Type} (ec : ElementContext α) (id : Nat)
    (f : α → α × β) : Option β × ElementContext α :=
  ((ec.cx.update_model id f).1, { cx := (ec.cx.update_model id f).2 })

/-- The interface operation `read_state(identity)` from the spec, delegating
to the wrapped long-lived handle. -/
def read_state {α β : Type} (ec : ElementContext α) (id : Nat) (read : α → β) :
    Option β :=
  ec.cx.read_model id read

/-- C1: for every Canvas adapter node, each of the two single-use callbacks
executes exactly once (the first invocation runs the stored callback and
forcibly empties its slot), and a second invocation attempt of
`Canvas::prepaint` or `Canvas::paint` on the same instance finds the slot
already emptied and traps (prepaint: the embedded method returns `none`,
the panic; paint: the trap flag is `true`), rather than silently doing
nothing. -/
theorem canvas_callbacks_single_use {T : Type} (c : Canvas T)
    (f : Bounds → Ctx → T × Ctx) (g : Bounds → T → Ctx → Ctx)
    (hf : c.prepaint = some f) (hg : c.paint = some g)
    (b b2 : Bounds) (s s2 : Style) (t t2 : T) (cx cx2 cx3 cx4 : Ctx) :
    Element.prepaint c b cx
        = some (some (f b cx).1, { c with prepaint := none }, (f b cx).2)
    ∧ Element.prepaint { c with prepaint := none } b2 cx2 = none
    ∧ Element.paint c b s (some t) cx3
        = some (false, { c with paint := none }, none,
            ((g b t (cx3.pushScopedRegion s b)).popScopedRegion))
    ∧ (Element.paint { c with paint := none } b2 s2 (some t2) cx4).map
        (fun r => r.1) = some true := by
  refine ⟨?_, ?_, ?_, ?_⟩ <;>
    simp [Element.prepaint, Element.paint, Style.paint, hf, hg]

/-- Witness for C1 at a concrete canvas, bounds, style and context. -/
theorem canvas_callbacks_single_use_witness :
    (canvas (fun _ cx => (5, cx)) (fun _ _ cx => cx) : Canvas Nat).prepaint
        = some (fun _ cx => (5, cx))
    ∧ (canvas (fun _ cx => (5, cx)) (fun _ _ cx => cx) : Canvas Nat).paint
        = some (fun _ _ cx => cx)
    ∧ (Element.prepaint (canvas (fun _ cx => (5, cx)) (fun _ _ cx => cx))
          ⟨⟨0, 0⟩, ⟨1, 1⟩⟩ ⟨[], []⟩
        = some (some 5,
            { canvas (fun _ cx => (5, cx)) (fun _ _ cx => cx) with
                prepaint := none },
            ⟨[], []⟩)
      ∧ Element.prepaint
          { canvas (fun _ cx => (5, cx)) (fun _ _ cx => cx) with
              prepaint := none } ⟨⟨0, 0⟩, ⟨1, 1⟩⟩ ⟨[], []⟩ = none
      ∧ Element.paint (canvas (fun _ cx => (5, cx)) (fun _ _ cx => cx))
          ⟨⟨0, 0⟩, ⟨1, 1⟩⟩ Style.default (some 5) ⟨[], []⟩
          = some (false,
              { canvas (fun _ cx => (5, cx)) (fun _ _ cx => cx) with
                  paint := none },
              none,
              ((Ctx.mk [] []).pushScopedRegion Style.default
                  ⟨⟨0, 0⟩, ⟨1, 1⟩⟩).popScopedRegion)
      ∧ (Element.paint
            { canvas (fun _ cx => (5, cx)) (fun _ _ cx => cx) with
                paint := none }
            ⟨⟨0, 0⟩, ⟨1, 1⟩⟩ Style.default (some 5) ⟨[], []⟩).map
          (fun r => r.1) = some true) :=
  ⟨rfl, rfl,
   canvas_callbacks_single_use
     (canvas (fun _ cx => (5, cx)) (fun _ _ cx => cx))
     (fun _ cx => (5, cx)) (fun _ _ cx => cx) rfl rfl
     ⟨⟨0, 0⟩, ⟨1, 1⟩⟩ ⟨⟨0, 0⟩, ⟨1, 1⟩⟩ Style.default Style.default 5 5
     ⟨[], []⟩ ⟨[], []⟩ ⟨[], []⟩ ⟨[], []⟩⟩

/-- C2: `Canvas::paint` establishes the styling-derived scoped region before
invoking the node-specific paint callback and releases it unconditionally
afterward: given that the callback appends the fragment `d` to the scene and
leaves the region stack as it found it, the scene after `paint` is the push
command, then `d`, then the matching pop command; the region stack is
restored; the push/pop pair contributed by `paint` nets to zero balance; and
even when the inner logic traps (empty callback slot), the pushed region is
still released. -/
theorem canvas_paint_region_balanced {T : Type} (c : Canvas T)
    (g : Bounds → T → Ctx → Ctx) (hg : c.paint = some g)
    (b : Bounds) (s : Style) (t : T) (cx : Ctx) (d : List Prim)
    (hscene : (g b t (cx.pushScopedRegion s b)).scene
        = (cx.pushScopedRegion s b).scene ++ d)
    (hstack : (g b t (cx.pushScopedRegion s b)).regionStack
        = (cx.pushScopedRegion s b).regionStack) :
    ((Element.paint c b s (some t) cx).map (fun r => r.2.2.2.scene)
        = some (cx.scene ++ [Prim.pushRegion b s] ++ d ++ [Prim.popRegion]))
    ∧ ((Element.paint c b s (some t) cx).map (fun r => r.2.2.2.regionStack)
        = some cx.regionStack)
    ∧ regionBalance ([Prim.pushRegion b s] ++ d ++ [Prim.popRegion])
        = regionBalance d
    ∧ ((Element.paint { c with paint := none } b s (some t) cx).map
          (fun r => (r.1, r.2.2.2.scene))
        = some (true,
            cx.scene ++ [Prim.pushRegion b s] ++ [Prim.popRegion])) := by
  have h1 := hscene
  have h2 := hstack
  simp only [Ctx.pushScopedRegion] at h1 h2
  refine ⟨?_, ?_, ?_, ?_⟩
  · simp [Element.paint, Style.paint, Ctx.popScopedRegion, hg, h1,
      Ctx.pushScopedRegion]
  · simp [Element.paint, Style.paint, Ctx.popScopedRegion, hg, h2,
      Ctx.pushScopedRegion]
  · simp [regionBalance, primDelta]
  · simp [Element.paint, Style.paint, Ctx.popScopedRegion,
      Ctx.pushScopedRegion]

/-- Witness for C2 at a concrete canvas whose paint callback draws one
opaque primitive. -/
theorem canvas_paint_region_balanced_witness :
    (canvas (fun _ cx => (0, cx))
        (fun _ _ cx => Ctx.mk (cx.scene ++ [Prim.draw 7]) cx.regionStack)
      : Canvas Nat).paint
        = some (fun _ _ cx => Ctx.mk (cx.scene ++ [Prim.draw 7]) cx.regionStack)
    ∧ ((Element.paint
          (canvas (fun _ cx => (0, cx))
            (fun _ _ cx => Ctx.mk (cx.scene ++ [Prim.draw 7]) cx.regionStack))
          ⟨⟨0, 0⟩, ⟨2, 2⟩⟩ Style.default (some 0) ⟨[], []⟩).map
          (fun r => r.2.2.2.scene)
        = some ([] ++ [Prim.pushRegion ⟨⟨0, 0⟩, ⟨2, 2⟩⟩ Style.default]
            ++ [Prim.draw 7] ++ [Prim.popRegion]))
    ∧ regionBalance ([Prim.pushRegion ⟨⟨0, 0⟩, ⟨2, 2⟩⟩ Style.default]
          ++ [Prim.draw 7] ++ [Prim.popRegion])
        = regionBalance [Prim.draw 7] :=
  ⟨rfl,
   (canvas_paint_region_balanced
      (canvas (fun _ cx => (0, cx))
        (fun _ _ cx => Ctx.mk (cx.scene ++ [Prim.draw 7]) cx.regionStack))
      (fun _ _ cx => Ctx.mk (cx.scene ++ [Prim.draw 7]) cx.regionStack) rfl
      ⟨⟨0, 0⟩, ⟨2, 2⟩⟩ Style.default 0 ⟨[], []⟩ [Prim.draw 7] rfl rfl).1,
   (canvas_paint_region_balanced
      (canvas (fun _ cx => (0, cx))
        (fun _ _ cx => Ctx.mk (cx.scene ++ [Prim.draw 7]) cx.regionStack))
      (fun _ _ cx => Ctx.mk (cx.scene ++ [Prim.draw 7]) cx.regionStack) rfl
      ⟨⟨0, 0⟩, ⟨2, 2⟩⟩ Style.default 0 ⟨[], []⟩ [Prim.draw 7] rfl rfl).2.2.1⟩

/-- C3: the style cascade is a deterministic, override-precedent,
field-by-field merge: for every base style and override record, the
effective style takes the override value on every field present in the
override and the base value on every field absent from it, and running the
cascade twice with the same inputs yields identical results. -/
theorem style_cascade_override_precedent (s : Style) (r : StyleRefinement) :
    ((∀ v, r.background = some v → (s.refine r).background = v)
      ∧ (r.background = none → (s.refine r).background = s.background))
    ∧ ((∀ v, r.borderWidth = some v → (s.refine r).borderWidth = v)
      ∧ (r.borderWidth = none → (s.refine r).borderWidth = s.borderWidth))
    ∧ ((∀ v, r.shadow = some v → (s.refine r).shadow = v)
      ∧ (r.shadow = none → (s.refine r).shadow = s.shadow))
    ∧ ((∀ v, r.cornerRadius = some v → (s.refine r).cornerRadius = v)
      ∧ (r.cornerRadius = none → (s.refine r).cornerRadius = s.cornerRadius))
    ∧ ((∀ v, r.minSize = some v → (s.refine r).minSize = v)
      ∧ (r.minSize = none → (s.refine r).minSize = s.minSize))
    ∧ ((∀ v, r.maxSize = some v → (s.refine r).maxSize = v)
      ∧ (r.maxSize = none → (s.refine r).maxSize = s.maxSize))
    ∧ s.refine r = s.refine r := by
  refine ⟨⟨?_, ?_⟩, ⟨?_, ?_⟩, ⟨?_, ?_⟩, ⟨?_, ?_⟩, ⟨?_, ?_⟩, ⟨?_, ?_⟩, rfl⟩ <;>
    intro h <;> try intro hv
  all_goals simp_all [Style.refine]

/-- Witness for C3 at a concrete base style and a concrete override record
with one field present (background) and the rest absent. -/
theorem style_cascade_override_precedent_witness :
    (Style.default.refine
        { StyleRefinement.default with background := some 9 }).background = 9
    ∧ (Style.default.refine
        { StyleRefinement.default with background := some 9 }).borderWidth
        = Style.default.borderWidth :=
  ⟨(style_cascade_override_precedent Style.default
      { StyleRefinement.default with background := some 9 }).1.1 9 rfl,
   (style_cascade_override_precedent Style.default
      { StyleRefinement.default with background := some 9 }).2.1.2 rfl⟩

/-- C4: for every Canvas node whose style-override record is the default
(empty) `StyleRefinement`, the effective style computed in `request_layout`
is identical to the default `Style`: the empty override is an identity
element for the cascade. -/
theorem empty_override_identity {T : Type} (c : Canvas T) (cx : LayoutCtx)
    (h : c.style = StyleRefinement.default) :
    (Element.request_layout c cx).1.2 = Style.default := by
  simp [Element.request_layout, h, Style.refine, StyleRefinement.default,
    Style.default]

/-- Witness for C4 at a concrete canvas with the default override record. -/
theorem empty_override_identity_witness :
    (canvas (fun _ cx => (0, cx)) (fun _ _ cx => cx) : Canvas Nat).style
        = StyleRefinement.default
    ∧ (Element.request_layout
        (canvas (fun _ cx => (0, cx)) (fun _ _ cx => cx) : Canvas Nat)
        ⟨[], 0, []⟩).1.2 = Style.default :=
  ⟨rfl,
   empty_override_identity
     (canvas (fun _ cx => (0, cx)) (fun _ _ cx => cx)) ⟨[], 0, []⟩ rfl⟩

/-- C5: `Canvas::request_layout` builds the effective style by cascading the
node overrides onto the default style, registers exactly one layout request
with the external solver using that style, returns the solver `LayoutId`
paired with the effective style as the carried-forward layout state, and
emits no drawing primitives. -/
theorem canvas_request_layout_registers_once {T : Type} (c : Canvas T)
    (cx : LayoutCtx) :
    (Element.request_layout c cx).1.2 = Style.default.refine c.style
    ∧ (Element.request_layout c cx).2.requests
        = cx.requests ++ [(Style.default.refine c.style, [])]
    ∧ (Element.request_layout c cx).2.requests.length
        = cx.requests.length + 1
    ∧ (Element.request_layout c cx).1.1
        = (cx.request_layout (Style.default.refine c.style) []).1
    ∧ (Element.request_layout c cx).2.scene = cx.scene := by
  refine ⟨rfl, rfl, ?_, rfl, rfl⟩
  simp [Element.request_layout, LayoutCtx.request_layout]

/-- C6: on the first paint invocation after prepaint, `Canvas::paint` takes
ownership of the stored prepaint payload and of the stored paint callback,
invokes the callback exactly once with (bounds, payload, context), and
leaves both the payload slot and the callback slot empty. -/
theorem canvas_paint_consumes_payload_and_callback {T : Type} (c : Canvas T)
    (g : Bounds → T → Ctx → Ctx) (hg : c.paint = some g)
    (b : Bounds) (s : Style) (t : T) (cx : Ctx) :
    Element.paint c b s (some t) cx
      = some (false, { c with paint := none }, none,
          ((g b t (cx.pushScopedRegion s b)).popScopedRegion)) := by
  simp [Element.paint, Style.paint, hg]

/-- Witness for C6 at a concrete canvas, payload and context. -/
theorem canvas_paint_consumes_payload_and_callback_witness :
    (canvas (fun _ cx => (3, cx)) (fun _ _ cx => cx) : Canvas Nat).paint
        = some (fun _ _ cx => cx)
    ∧ Element.paint (canvas (fun _ cx => (3, cx)) (fun _ _ cx => cx))
        ⟨⟨0, 0⟩, ⟨4, 4⟩⟩ Style.default (some 3) ⟨[], []⟩
      = some (false,
          { canvas (fun _ cx => (3, cx)) (fun _ _ cx => cx) with
              paint := none },
          none,
          ((Ctx.mk [] []).pushScopedRegion Style.default
              ⟨⟨0, 0⟩, ⟨4, 4⟩⟩).popScopedRegion) :=
  ⟨rfl,
   canvas_paint_consumes_payload_and_callback
     (canvas (fun _ cx => (3, cx)) (fun _ _ cx => cx)) (fun _ _ cx => cx) rfl
     ⟨⟨0, 0⟩, ⟨4, 4⟩⟩ Style.default 3 ⟨[], []⟩⟩

/-- C7: every persistent-state operation exposed by `ElementContext`
(creating a new model cell, updating one by identity, reading one immutably,
and the view-level equivalents) returns exactly the result of invoking the
corresponding operation on the wrapped `WindowContext` with the same
arguments; since `ElementContext` consists of nothing but the wrapped
context, the layer adds no state of its own to these operations (the
interface operations `create_state`, `update_state`, `read_state` of the
spec coincide with the implemented ones). -/
theorem element_context_state_ops_delegate {α β : Type}
    (ec : ElementContext α) (build : Nat → α) (id : Nat)
    (f : α → α × β) (read : α → β) :
    ec.new_model build = create_state ec build
    ∧ (ec.new_model build).1 = (ec.cx.new_model build).1
    ∧ (ec.new_model build).2.cx = (ec.cx.new_model build).2
    ∧ ec.update_model id f = update_state ec id f
    ∧ (ec.update_model id f).1 = (ec.cx.update_model id f).1
    ∧ (ec.update_model id f).2.cx = (ec.cx.update_model id f).2
    ∧ ec.read_model id read = read_state ec id read
    ∧ ec.read_model id read = ec.cx.read_model id read
    ∧ (ec.new_view build).1 = (ec.cx.new_view build).1
    ∧ (ec.new_view build).2.cx = (ec.cx.new_view build).2
    ∧ (ec.update_view id f).1 = (ec.cx.update_view id f).1
    ∧ (ec.update_view id f).2.cx = (ec.cx.update_view id f).2 :=
  ⟨rfl, rfl, rfl, rfl, rfl, rfl, rfl, rfl, rfl, rfl, rfl, rfl⟩

/-- C8: an `ElementContext` built by `with_element_context` around an
existing window-state handle can be viewed, without copying, as app-wide
state, as window-scoped state, or as the window context itself: each borrow
yields the very state objects the wrapped handle refers to, each mutable
borrow lands its mutation on that same underlying state (leaving the other
layer untouched), and mutations made through the element context flow back
into the window context. -/
theorem element_context_layered_views {α β : Type} (wc : WindowContext α)
    (f : ElementContext α → β × ElementContext α)
    (gApp : AppContext α → AppContext α) (gWin : Window → Window)
    (gWC : WindowContext α → WindowContext α) (ec : ElementContext α) :
    (ElementContext.mk (WindowContext.new wc.app wc.window)).borrowApp
        = wc.app
    ∧ (ElementContext.mk (WindowContext.new wc.app wc.window)).borrowWindow
        = wc.window
    ∧ (ElementContext.mk
        (WindowContext.new wc.app wc.window)).borrowWindowContext = wc
    ∧ ec.borrowApp = ec.cx.app
    ∧ ec.borrowWindow = ec.cx.window
    ∧ ec.borrowWindowContext = ec.cx
    ∧ (ec.borrowMutApp gApp).borrowApp = gApp ec.borrowApp
    ∧ (ec.borrowMutApp gApp).borrowWindow = ec.borrowWindow
    ∧ (ec.borrowMutWindow gWin).borrowWindow = gWin ec.borrowWindow
    ∧ (ec.borrowMutWindow gWin).borrowApp = ec.borrowApp
    ∧ (ec.borrowMutWindowContext gWC).borrowWindowContext
        = gWC ec.borrowWindowContext
    ∧ wc.with_element_context f
        = ((f (ElementContext.mk (WindowContext.new wc.app wc.window))).1,
           (f (ElementContext.mk (WindowContext.new wc.app wc.window))).2.cx) :=
  ⟨rfl, rfl, rfl, rfl, rfl, rfl, rfl, rfl, rfl, rfl, rfl, rfl⟩

/-- C9: `Canvas::request_layout` registers the node with the layout solver
with an empty child-id list, regardless of its style overrides or callbacks:
a Canvas is always a leaf of the solver registration. -/
theorem canvas_request_layout_leaf {T : Type} (c : Canvas T)
    (cx : LayoutCtx) :
    (Element.request_layout c cx).2.requests
      = cx.requests
          ++ [(Style.default.refine c.style, ([] : List LayoutId))] :=
  rfl

/-- C10: the first invocation of `Canvas::prepaint` on a populated slot
always returns a present payload (`some` of the prepaint callback result,
never `none`), and the payload extraction at the start of `Canvas::paint`
succeeds on every present payload: under the protocol (paint runs once after
one prepaint), the failure branch of the extraction is unreachable. -/
theorem canvas_prepaint_payload_present {T : Type} (c : Canvas T)
    (f : Bounds → Ctx → T × Ctx) (hf : c.prepaint = some f)
    (b b2 : Bounds) (s : Style) (cx cx2 : Ctx) (c2 : Canvas T) :
    ((Element.prepaint c b cx).map (fun r => r.1) = some (some (f b cx).1))
    ∧ (Element.prepaint c b cx).isSome = true
    ∧ (Element.paint c2 b2 s (some (f b cx).1) cx2).isSome = true := by
  refine ⟨?_, ?_, ?_⟩ <;> simp [Element.prepaint, Element.paint, hf]

/-- Witness for C10 at a concrete canvas, bounds and context. -/
theorem canvas_prepaint_payload_present_witness :
    (canvas (fun _ cx => (8, cx)) (fun _ _ cx => cx) : Canvas Nat).prepaint
        = some (fun _ cx => (8, cx))
    ∧ ((Element.prepaint (canvas (fun _ cx => (8, cx)) (fun _ _ cx => cx))
          ⟨⟨0, 0⟩, ⟨1, 1⟩⟩ ⟨[], []⟩).map (fun r => r.1) = some (some 8))
    ∧ (Element.prepaint (canvas (fun _ cx => (8, cx)) (fun _ _ cx => cx))
          ⟨⟨0, 0⟩, ⟨1, 1⟩⟩ ⟨[], []⟩).isSome = true
    ∧ (Element.paint (canvas (fun _ cx => (8, cx)) (fun _ _ cx => cx))
          ⟨⟨2, 2⟩, ⟨3, 3⟩⟩ Style.default (some 8) ⟨[], []⟩).isSome = true :=
  ⟨rfl,
   (canvas_prepaint_payload_present
      (canvas (fun _ cx => (8, cx)) (fun _ _ cx => cx)) (fun _ cx => (8, cx))
      rfl ⟨⟨0, 0⟩, ⟨1, 1⟩⟩ ⟨⟨2, 2⟩, ⟨3, 3⟩⟩ Style.default ⟨[], []⟩ ⟨[], []⟩
      (canvas (fun _ cx => (8, cx)) (fun _ _ cx => cx))).1,
   (canvas_prepaint_payload_present
      (canvas (fun _ cx => (8, cx)) (fun _ _ cx => cx)) (fun _ cx => (8, cx))
      rfl ⟨⟨0, 0⟩, ⟨1, 1⟩⟩ ⟨⟨2, 2⟩, ⟨3, 3⟩⟩ Style.default ⟨[], []⟩ ⟨[], []⟩
      (canvas (fun _ cx => (8, cx)) (fun _ _ cx => cx))).2.1,
   (canvas_prepaint_payload_present
      (canvas (fun _ cx => (8, cx)) (fun _ _ cx => cx)) (fun _ cx => (8, cx))
      rfl ⟨⟨0, 0⟩, ⟨1, 1⟩⟩ ⟨⟨2, 2⟩, ⟨3, 3⟩⟩ Style.default ⟨[], []⟩ ⟨[], []⟩
      (canvas (fun _ cx => (8, cx)) (fun _ _ cx => cx))).2.2⟩
